import Mathlib

set_option maxRecDepth 100000

/-!
Verification development for the `subscript` repository.

Part 1 models the `check_swatinit` diagnostic engine (capillary-pressure
curve evaluation and inversion, per-cell scaling resolution, the QC
classifier and the volumetric aggregation).  The engine's own source file is
not part of the sources provided; the definitions below are modelled from
the specification (sections 3, 4 and 7), with the repository's test suite
(`tests/test_check_swatinit_simulators.py`) pinning behaviour where the
specification is silent or ambiguous.  Each such definition carries a
doc comment starting with `Modelled from the spec:`.

Part 2 embeds `main_gravmaps` from
`src/subscript/grav_subs_maps/grav_subs_maps.py`, which is present in the
sources; the external library evaluators (`ResdataGrav.eval`,
`ResdataSubsidence.eval_geertsma_rporv`, read from files) are abstracted as
function parameters.

All machine floats are modelled as exact rationals.
-/

/-- Modelled from the spec: the truncation tolerance (§4.4 branch 1 "within
tolerance", §9 "named configuration constants"); the spec gives no numeric
value, a small positive constant is fixed here. -/
def truncationTolerance : ℚ := 1 / 10000

/-- Modelled from the spec: piecewise-linear interpolation of an unscaled
capillary-pressure curve given as (saturation, pressure) control points
(§4.1): saturations outside the table domain clamp to the nearest endpoint
pressure. -/
def evalPc : List (ℚ × ℚ) → ℚ → ℚ
  | [], _ => 0
  | [p], _ => p.2
  | p :: q :: rest, sw =>
    if sw ≤ p.1 then p.2
    else if sw ≤ q.1 then p.2 + (sw - p.1) * (q.2 - p.2) / (q.1 - p.1)
    else evalPc (q :: rest) sw

/-- Modelled from the spec: inverse piecewise-linear interpolation (§4.1);
on a curve with non-increasing pressures, returns the saturation at the
queried pressure, choosing the low-saturation endpoint where the curve is
flat at that pressure, and clamping outside the pressure range. -/
def evalSw : List (ℚ × ℚ) → ℚ → ℚ
  | [], _ => 0
  | [p], _ => p.1
  | p :: q :: rest, pc =>
    if p.2 ≤ pc then p.1
    else if q.2 ≤ pc then p.1 + (pc - p.2) * (q.1 - p.1) / (q.2 - p.2)
    else evalSw (q :: rest) pc

/-- Modelled from the spec: `evaluate_pc(saturation, scale)` (§4.1), the
interpolated pressure multiplied by `scale`. -/
def evaluate_pc (pts : List (ℚ × ℚ)) (sw : ℚ) (scale : ℚ) : ℚ :=
  scale * evalPc pts sw

/-- The curve with all pressures multiplied by a scale factor (the
"scale-adjusted curve" of §4.1). -/
def scaleCurve (s : ℚ) (pts : List (ℚ × ℚ)) : List (ℚ × ℚ) :=
  pts.map fun p => (p.1, s * p.2)

/-- Modelled from the spec: `evaluate_sw(pressure, scale)` (§4.1), the
inverse of `evaluate_pc`: saturation read off the scale-adjusted curve. -/
def evaluate_sw (pts : List (ℚ × ℚ)) (pc : ℚ) (scale : ℚ) : ℚ :=
  evalSw (scaleCurve scale pts) pc

/-- Saturations of the control points are strictly increasing (§3). -/
def strictlyIncreasingSw (pts : List (ℚ × ℚ)) : Prop :=
  List.Chain' (fun p q : ℚ × ℚ => p.1 < q.1) pts

/-- Pressures of the control points are monotonically non-increasing (§3). -/
def nonIncreasingPc (pts : List (ℚ × ℚ)) : Prop :=
  List.Chain' (fun p q : ℚ × ℚ => q.2 ≤ p.2) pts

/-- Pressures of the control points are strictly decreasing (no flat
pressure segment). -/
def strictlyDecreasingPc (pts : List (ℚ × ℚ)) : Prop :=
  List.Chain' (fun p q : ℚ × ℚ => q.2 < p.2) pts

/-- Modelled from the spec: a curve table accepted by construction (§4.1:
rejected with `InvalidCurveError` unless saturations are strictly
increasing and the pressure ordering is monotonic). -/
def validCurve (pts : List (ℚ × ℚ)) : Prop :=
  pts ≠ [] ∧ strictlyIncreasingSw pts ∧ nonIncreasingPc pts

/-- Saturation of the first control point (low end of the table domain). -/
def curve_head_sw (pts : List (ℚ × ℚ)) : ℚ := (pts.headD (0, 0)).1

/-- Saturation of the last control point (high end of the table domain). -/
def curve_last_sw (pts : List (ℚ × ℚ)) : ℚ := (pts.getLastD (0, 0)).1

/-- Modelled from the spec: `max_pc`, the curve value at the lowest
saturation (§3). -/
def max_pc (pts : List (ℚ × ℚ)) : ℚ := (pts.headD (0, 0)).2

/-- Modelled from the spec: the curve's zero-pressure saturation, the
saturation endpoint at the low-pressure end of the table (§4.3, §4.4
branch 3: "commonly 1.0"). -/
def zero_pc_sat (pts : List (ℚ × ℚ)) : ℚ := curve_last_sw pts

/-- Modelled from the spec: `pc_at_depth` of ContactGeometry (§4.2),
`(contact_depth - depth) * gradient`: positive above contact, negative or
zero at or below contact. -/
def pc_at_depth (depth contact_depth gradient : ℚ) : ℚ :=
  (contact_depth - depth) * gradient

/-- Modelled from the spec: `is_below_contact` of ContactGeometry (§4.2);
a cell is below the contact when it is deeper than the contact depth. -/
def is_below_contact (depth contact_depth : ℚ) : Bool :=
  contact_depth < depth

/-- Modelled from the spec: the outcome of the ScalingResolver (§4.3);
failure is a sentinel outcome, not an exception. -/
inductive ScalingOutcome
  | resolved (s : ℚ)
  | undefined
  | notApplicable
deriving DecidableEq, Repr

/-- Modelled from the spec: the ScalingResolver (§4.3).  Below contact the
curve is not used ("scaling not applicable"); at the table's zero-pressure
saturation the curve cannot be scaled ("scaling undefined"); otherwise the
implied scale is `pc_unscaled / evaluate_pc(realized_saturation)` when both
quantities are non-zero, else the sentinel. -/
def resolve_scaling (curve : List (ℚ × ℚ)) (pc_unscaled swat : ℚ)
    (below : Bool) : ScalingOutcome :=
  if below then .notApplicable
  else if swat = zero_pc_sat curve then .undefined
  else if pc_unscaled ≠ 0 ∧ evaluate_pc curve swat 1 ≠ 0 then
    .resolved (pc_unscaled / evaluate_pc curve swat 1)
  else .undefined

/-- Modelled from the spec: the diagnostic categories (§4.4), a closed
enumerated type (§9). -/
inductive QcFlag
  | swlTrunc
  | hcBelowFwl
  | swatinit1
  | water
  | ppcwmax
  | pcScaled
deriving DecidableEq, Repr, Fintype

/-- Modelled from the spec: one grid cell's inputs (CellRecord, §3), with
its two region objects inlined (curve table, contact depth and gradient)
and the simulator-reported curve endpoint pressure `ppcw_sim` carried in
from the property table (the PPCW column of the repository's tests). -/
structure CellRecord where
  swatinit : ℚ
  swat : ℚ
  swl : ℚ
  swlpc : Option ℚ
  swu : ℚ
  porv : ℚ
  depth : ℚ
  contact : ℚ
  gradient : ℚ
  curve : List (ℚ × ℚ)
  ppcwmax : Option ℚ
  ppcw_sim : ℚ
deriving DecidableEq, Repr

/-- Modelled from the spec: the per-cell output record (QCRecord, §3):
diagnostic category, nullable derived fields `PC`, `PPCW`, `PC_SCALING`,
and the original fields needed for volumetric aggregation carried
through. -/
structure QCRecord where
  flag : QcFlag
  pc : Option ℚ
  ppcw : Option ℚ
  pc_scaling : Option ℚ
  swatinit : ℚ
  swat : ℚ
  porv : ℚ
deriving DecidableEq, Repr

/-- Modelled from the spec: the truncation floor, `swlpc` when present,
else `swl` (§4.4). -/
def truncation_floor (c : CellRecord) : ℚ := c.swlpc.getD c.swl

/-- Modelled from the spec: the record emitted by the default PC_SCALED
branch (§4.4 branch 6) for a resolved scale `s`. -/
def pc_scaled_record (c : CellRecord) (s : ℚ) : QCRecord :=
  { flag := .pcScaled
    pc := some (evaluate_pc c.curve c.swatinit s)
    ppcw := some (s * max_pc c.curve)
    pc_scaling := some s
    swatinit := c.swatinit, swat := c.swat, porv := c.porv }

/-- Modelled from the spec: the Classifier (§4.4), a first-match decision
procedure per cell.  Branch 1 (SWL_TRUNC) fires when the simulator
truncated the request up to the floor: `swat` at the floor within
tolerance and `swatinit` below the floor (the §8 scenarios fix this
reading; with the literal "differs from swatinit" the SWATINIT_1 scenario
of §8 could never be reached).  Where the spec leaves a derived field of a
branch unstated it is null (§4.4 last paragraph), except that branches 1
and 3 keep the simulator-reported endpoint pressure in `PPCW`, as pinned
by the repository's tests (`test_swat_higher_than_swatinit_via_swl_above_contact`,
`test_swatinit_1_far_above_contact` assert a non-null PPCW there). -/
def classify (c : CellRecord) : QCRecord :=
  let floor := truncation_floor c
  let below := is_below_contact c.depth c.contact
  let pcu := pc_at_depth c.depth c.contact c.gradient
  if |c.swat - floor| ≤ truncationTolerance ∧ c.swatinit < floor then
    { flag := .swlTrunc, pc := none, ppcw := some c.ppcw_sim,
      pc_scaling := none,
      swatinit := c.swatinit, swat := c.swat, porv := c.porv }
  else if below ∧ c.swat ≠ c.swatinit then
    { flag := .hcBelowFwl, pc := some (evaluate_pc c.curve c.swat 1),
      ppcw := none, pc_scaling := none,
      swatinit := c.swatinit, swat := c.swat, porv := c.porv }
  else if (zero_pc_sat c.curve ≤ c.swatinit ∨ c.swu ≤ c.swatinit) ∧ ¬below then
    { flag := .swatinit1
      pc := if curve_head_sw c.curve < c.swat ∧ c.swat < curve_last_sw c.curve
            then some (evaluate_pc c.curve c.swat 1) else none
      ppcw := some c.ppcw_sim, pc_scaling := none,
      swatinit := c.swatinit, swat := c.swat, porv := c.porv }
  else if c.swat = 1 ∧ c.swatinit = 1 then
    { flag := .water, pc := some 0, ppcw := some (max_pc c.curve),
      pc_scaling := none,
      swatinit := c.swatinit, swat := c.swat, porv := c.porv }
  else
    match resolve_scaling c.curve pcu c.swat below, c.ppcwmax with
    | .resolved s, some pmax =>
      if pmax < s * max_pc c.curve then
        { flag := .ppcwmax
          pc := some (evaluate_pc c.curve c.swatinit (pmax / max_pc c.curve))
          ppcw := some pmax, pc_scaling := some (pmax / max_pc c.curve),
          swatinit := c.swatinit, swat := c.swat, porv := c.porv }
      else pc_scaled_record c s
    | .resolved s, none => pc_scaled_record c s
    | _, _ =>
      { flag := .pcScaled, pc := none, ppcw := none, pc_scaling := none,
        swatinit := c.swatinit, swat := c.swat, porv := c.porv }

/-- Modelled from the spec: per-category cell count of the
VolumetricAggregator's partition (§4.5, §8). -/
def qc_counts (recs : List QCRecord) (f : QcFlag) : ℕ :=
  (recs.filter fun r => r.flag == f).length

/-- Modelled from the spec: `qc_volumes`, the VolumetricAggregator (§4.5):
group QCRecords by category and sum `(swat - swatinit) * porv`. -/
def qc_volumes (recs : List QCRecord) (f : QcFlag) : ℚ :=
  ((recs.filter fun r => r.flag == f).map
    fun r => (r.swat - r.swatinit) * r.porv).sum

/-- A QCRecord's three derived fields are all null or all populated. -/
def allNullOrAllSome (q : QCRecord) : Prop :=
  (q.pc = none ∧ q.ppcw = none ∧ q.pc_scaling = none) ∨
  (q.pc ≠ none ∧ q.ppcw ≠ none ∧ q.pc_scaling ≠ none)

/-- Availability of the required inputs at the tool boundary (§6, §7): the
unified-output switch, the restart file with the step-zero saturation, the
SWATINIT keyword and the SWL endpoint data. -/
structure CheckSwatinitInputs where
  has_unifout : Bool
  has_unrst : Bool
  has_swatinit : Bool
  has_swl : Bool
deriving DecidableEq, Repr

/-- Outcome of one run of the tool at the process boundary: termination
with a non-zero status naming what is missing, or a completed run with its
logged messages. -/
inductive RunOutcome
  | exitFailure (msg : String)
  | completed (messages : List String)
deriving DecidableEq, Repr

/-- Modelled from the spec: the `check_swatinit` entry point's exit-status
behaviour (§6, §7); the entry point itself is absent from the sources, and
the repository's tests pin the behaviour (`test_no_unifout` and
`test_no_unrst` expect `SystemExit` naming the missing file, while
`test_no_swatinit` and `test_no_filleps` call `main()` with no exception
and only check the logged text). -/
def check_swatinit_main (i : CheckSwatinitInputs) : RunOutcome :=
  if !i.has_unifout then .exitFailure "UNIFOUT"
  else if !i.has_unrst then .exitFailure "UNRST"
  else if !i.has_swatinit then
    .completed ["INIT-file/deck does not have SWATINIT"]
  else if !i.has_swl then .completed ["SWL not found, FILLEPS is needed"]
  else .completed []

/-- Whether a run outcome is a termination with non-zero exit status. -/
def isFailureRun : RunOutcome → Bool
  | .exitFailure _ => true
  | .completed _ => false

/-- Scenario cell for the PPCWMAX cap (§8): one cell above contact,
`max_pc = 3`, `ppcwmax = 3.01`, with the resolved scale 6/5 so that the
scaled endpoint 18/5 exceeds the cap. -/
def c2cell : CellRecord :=
  { swatinit := 4/5, swat := 1/2, swl := 1/10, swlpc := none, swu := 1,
    porv := 1, depth := 1000, contact := 1100, gradient := 1/50,
    curve := [(1/10, 3), (1, 0)], ppcwmax := some (301/100), ppcw_sim := 3 }

/-- Scenario cell for SWL truncation (§8): `SWATINIT = 0.3`, `SWL = 0.5`
(no SWLPC), realized `SWAT = 0.5`; every other input is arbitrary. -/
def c3cell (porv swu depth contact gradient ppcw_sim : ℚ)
    (curve : List (ℚ × ℚ)) (pmax : Option ℚ) : CellRecord :=
  { swatinit := 3/10, swat := 1/2, swl := 1/2, swlpc := none, swu := swu,
    porv := porv, depth := depth, contact := contact, gradient := gradient,
    curve := curve, ppcwmax := pmax, ppcw_sim := ppcw_sim }

/-- Scenario cell for SWATINIT_1 (§8): `SWATINIT = 1` far above contact,
realized `SWAT = SWL = 0.1`; the pore volume is arbitrary. -/
def c4cell (porv : ℚ) : CellRecord :=
  { swatinit := 1, swat := 1/10, swl := 1/10, swlpc := none, swu := 1,
    porv := porv, depth := 1000, contact := 2000, gradient := 1/50,
    curve := [(1/10, 3), (1, 0)], ppcwmax := none, ppcw_sim := 3 }

/-- A cell classified PC_SCALED whose realized saturation 0.9 is far from
the requested 0.3: no cap is configured, no earlier branch fires, the
resolver returns scale 6. -/
def c6cell : CellRecord :=
  { swatinit := 3/10, swat := 9/10, swl := 1/10, swlpc := none, swu := 1,
    porv := 1, depth := 1000, contact := 1100, gradient := 1/50,
    curve := [(1/10, 3), (1, 0)], ppcwmax := none, ppcw_sim := 3 }

/-- A valid curve table (strictly increasing saturations, non-increasing
pressures) with a flat pressure segment between saturations 0 and 1/2. -/
def flatCurve : List (ℚ × ℚ) := [(0, 1), (1/2, 1), (1, 0)]

/-- Constant for subsidence modelling from the source (`DUMMY_YOUNGS =
0.5`), not influencing results since subsidence is calculated from
pore-volume change. -/
def DUMMY_YOUNGS : ℚ := 1/2

/-- Phase mask codes from the source (`phase_code = {'oil':1, 'gas':2,
'water':4, 'total':7}`); the configuration validator admits only these
four phases, so the catch-all is never reached on validated input. -/
def phase_code : String → Nat
  | "oil" => 1
  | "gas" => 2
  | "water" => 4
  | "total" => 7
  | _ => 0

/-- Gravity map file name from the source: `PREFIX_GRAVSURF + phase + "--"
+ diffdate[0] + "_" + diffdate[1] + ".gri"`. -/
def gravsurf_filename (phase d0 d1 : String) : String :=
  "all--delta_gravity_" ++ phase ++ "--" ++ d0 ++ "_" ++ d1 ++ ".gri"

/-- Subsidence map file name from the source: `PREFIX_SUBSSURF + "--" +
diffdate[0] + "_" + diffdate[1] + ".gri"`. -/
def subssurf_filename (d0 d1 : String) : String :=
  "all--subsidence" ++ "--" ++ d0 ++ "_" ++ d1 ++ ".gri"

/-- One row of the (coarsened) seabed surface dataframe: `X_UTME`,
`Y_UTMN` and `VALUES` (the seabed depth used both as map-template value
and as receiver depth). -/
structure SurfRow where
  x : ℚ
  y : ℚ
  v : ℚ
deriving DecidableEq, Repr

/-- The kind of an output map: a delta-gravity map for one phase, or a
subsidence map. -/
inductive MapKind
  | gravity (phase : String)
  | subsidence
deriving DecidableEq, Repr

/-- One surface file written by `main_gravmaps`: its kind, the two dates
of the difference pair (`d0 = diffdate[0]`, `d1 = diffdate[1]`), the file
name and the list of map values. -/
structure MapFile where
  kind : MapKind
  d0 : String
  d1 : String
  filename : String
  values : List ℚ
deriving DecidableEq, Repr

/-- The survey-date loop of `main_gravmaps` (source lines 208-224): walk
the dates of all difference pairs in order; a date already added is
skipped, a date present in the restart file is added as a survey, and a
date absent from the restart file terminates the process with exit
status 1. -/
def add_survey_dates : List String → List String → List String →
    Except Nat (List String)
  | [], added, _ => .ok added
  | d :: rest, added, restartDates =>
    if d ∈ added then add_survey_dates rest added restartDates
    else if d ∈ restartDates then
      add_survey_dates rest (added ++ [d]) restartDates
    else .error 1

/-- Embedding of `main_gravmaps` (source lines 160-266).  The external
evaluators are abstracted: `gravEval base monitor (x, y, depth) mask` is
`ResdataGrav.eval` and `subsEval base monitor (x, y, depth) youngs poisson
rporv` is `ResdataSubsidence.eval_geertsma_rporv`; `seabed` is the
coarsened seabed surface; `restartDates` are the dates of the UNRST file.
The result is the list of written map files, or the exit status when a
configured date is absent from the restart file.  The argument order of
the evaluators mirrors the source calls `grav.eval(diffdate[1],
diffdate[0], ...)` and `subsidence.eval_geertsma_rporv(diffdate[1],
diffdate[0], ..., DUMMY_YOUNGS, poisson_ratio, row['VALUES'])`; the
subsidence series is multiplied by 100 before being written ("From m to
cms"), the gravity series is written as evaluated. -/
def main_gravmaps
    (gravEval : String → String → ℚ × ℚ × ℚ → Nat → ℚ)
    (subsEval : String → String → ℚ × ℚ × ℚ → ℚ → ℚ → ℚ → ℚ)
    (seabed : List SurfRow) (poisson : ℚ)
    (diffdates : List (String × String)) (phases : List String)
    (restartDates : List String) : Except Nat (List MapFile) :=
  match add_survey_dates (diffdates.flatMap fun p => [p.1, p.2]) []
      restartDates with
  | .error n => .error n
  | .ok _ =>
    let gravityMaps := diffdates.flatMap fun d =>
      phases.map fun phase =>
        { kind := MapKind.gravity phase, d0 := d.1, d1 := d.2,
          filename := gravsurf_filename phase d.1 d.2,
          values := seabed.map fun r =>
            gravEval d.2 d.1 (r.x, r.y, r.v) (phase_code phase) : MapFile }
    let subsMaps := diffdates.map fun d =>
      { kind := MapKind.subsidence, d0 := d.1, d1 := d.2,
        filename := subssurf_filename d.1 d.2,
        values := (seabed.map fun r =>
          subsEval d.2 d.1 (r.x, r.y, r.v) DUMMY_YOUNGS poisson r.v).map
            fun i => i * 100 : MapFile }
    .ok (gravityMaps ++ subsMaps)

/-- Concrete gravity evaluator for witnesses: returns the receiver
depth. -/
def gravEval0 : String → String → ℚ × ℚ × ℚ → Nat → ℚ :=
  fun _ _ pos _ => pos.2.2

/-- Concrete subsidence evaluator for witnesses: receiver depth plus the
reference pore volume argument. -/
def subsEval0 : String → String → ℚ × ℚ × ℚ → ℚ → ℚ → ℚ → ℚ :=
  fun _ _ pos _ _ v => pos.2.2 + v

/-- One-point seabed surface for witnesses. -/
def seabed0 : List SurfRow := [{ x := 0, y := 0, v := 5 }]

/-- One difference-date pair for witnesses. -/
def diffdates0 : List (String × String) := [("d2", "d1")]

/-- Restart dates containing both dates of `diffdates0`. -/
def restartDates0 : List String := ["d1", "d2"]

/-- A single phase for witnesses. -/
def phases0 : List String := ["gas"]

/-- The SWL-truncation scenario cell at concrete remaining inputs, with
simulator-reported endpoint pressure 3. -/
def swl_trunc_cell : CellRecord :=
  c3cell 1 1 1000 2000 (1/50) 3 [(1/10, 3), (1, 0)] none

/-! Helper lemmas shared by the claim theorems. -/

lemma sum_over_flags {M : Type} [AddCommMonoid M] (g : QCRecord → M) :
    ∀ recs : List QCRecord,
      (∑ f : QcFlag, ((recs.filter fun r => r.flag == f).map g).sum) =
        (recs.map g).sum := by
  intro recs
  induction recs with
  | nil => simp
  | cons r rest ih =>
    have step : ∀ f : QcFlag,
        (((r :: rest).filter fun x => x.flag == f).map g).sum =
          (if r.flag = f then g r else 0) +
            ((rest.filter fun x => x.flag == f).map g).sum := by
      intro f
      by_cases h : r.flag = f
      · simp [List.filter_cons, h]
      · simp [List.filter_cons, h]
    rw [Finset.sum_congr rfl fun f _ => step f, Finset.sum_add_distrib, ih]
    simp [Finset.sum_ite_eq]

lemma length_eq_sum_ones {α : Type} (l : List α) :
    l.length = (l.map fun _ => (1 : ℕ)).sum := by
  induction l with
  | nil => rfl
  | cons a l ih =>
    rw [List.map_cons, List.sum_cons, List.length_cons, ih]
    omega

lemma classify_cases (c : CellRecord) :
    allNullOrAllSome (classify c) ∨
      (classify c).flag = QcFlag.swlTrunc ∨
      (classify c).flag = QcFlag.hcBelowFwl ∨
      (classify c).flag = QcFlag.swatinit1 ∨
      (classify c).flag = QcFlag.water := by
  simp only [classify]
  split_ifs <;> try simp [allNullOrAllSome]
  split
  · split_ifs <;> simp [allNullOrAllSome, pc_scaled_record]
  · simp [allNullOrAllSome, pc_scaled_record]
  · simp [allNullOrAllSome]

lemma resolve_scaling_eq (curve : List (ℚ × ℚ)) (pcu swat : ℚ)
    (below : Bool) (s : ℚ)
    (h : resolve_scaling curve pcu swat below = .resolved s) :
    evaluate_pc curve swat s = pcu := by
  unfold resolve_scaling at h
  split_ifs at h with hb hz hnz
  · injection h with hs
    subst hs
    rw [evaluate_pc] at hnz ⊢
    rw [one_mul] at hnz
    rw [evaluate_pc, one_mul]
    exact div_mul_cancel₀ pcu hnz.2

lemma classify_pcScaled_resolved (c : CellRecord) (s : ℚ)
    (hflag : (classify c).flag = QcFlag.pcScaled)
    (hsc : (classify c).pc_scaling = some s) :
    resolve_scaling c.curve (pc_at_depth c.depth c.contact c.gradient)
      c.swat (is_below_contact c.depth c.contact) = .resolved s := by
  rcases hres : resolve_scaling c.curve
      (pc_at_depth c.depth c.contact c.gradient) c.swat
      (is_below_contact c.depth c.contact) with s' | _ | _
  · rcases hpm : c.ppcwmax with _ | pmax
    · simp only [classify, hres, hpm] at hsc
      split_ifs at hsc <;> simp_all [pc_scaled_record]
    · simp only [classify, hres, hpm] at hflag hsc
      split_ifs at hflag hsc <;> simp_all [pc_scaled_record]
  · simp only [classify, hres] at hsc
    split_ifs at hsc
  · simp only [classify, hres] at hsc
    split_ifs at hsc

lemma classify_c6cell : classify c6cell =
    { flag := .pcScaled, pc := some 14, ppcw := some 18,
      pc_scaling := some 6, swatinit := 3/10, swat := 9/10, porv := 1 } := by
  norm_num [classify, c6cell, truncation_floor, truncationTolerance,
    is_below_contact, pc_at_depth, resolve_scaling, zero_pc_sat,
    curve_last_sw, evaluate_pc, evalPc, max_pc, pc_scaled_record]

lemma resolve_c2cell : resolve_scaling c2cell.curve
    (pc_at_depth c2cell.depth c2cell.contact c2cell.gradient) c2cell.swat
    (is_below_contact c2cell.depth c2cell.contact) = .resolved (6/5) := by
  norm_num [c2cell, resolve_scaling, pc_at_depth, is_below_contact,
    zero_pc_sat, curve_last_sw, evaluate_pc, evalPc]

lemma classify_swl_trunc_cell : classify swl_trunc_cell =
    { flag := .swlTrunc, pc := none, ppcw := some 3, pc_scaling := none,
      swatinit := 3/10, swat := 1/2, porv := 1 } := by
  norm_num [classify, swl_trunc_cell, c3cell, truncation_floor,
    truncationTolerance]

lemma curve_last_sw_cons (p q : ℚ × ℚ) (rest : List (ℚ × ℚ)) :
    curve_last_sw (p :: q :: rest) = curve_last_sw (q :: rest) := rfl

lemma curve_last_sw_singleton (p : ℚ × ℚ) : curve_last_sw [p] = p.1 := rfl

lemma curve_head_sw_cons (p : ℚ × ℚ) (rest : List (ℚ × ℚ)) :
    curve_head_sw (p :: rest) = p.1 := rfl

lemma evalPc_lt_head (p : ℚ × ℚ) (rest : List (ℚ × ℚ)) (sw : ℚ)
    (hsw : List.Chain' (fun a b : ℚ × ℚ => a.1 < b.1) (p :: rest))
    (hpc : List.Chain' (fun a b : ℚ × ℚ => b.2 < a.2) (p :: rest))
    (h1 : p.1 < sw) (h2 : sw < curve_last_sw (p :: rest)) :
    evalPc (p :: rest) sw < p.2 := by
  induction rest generalizing p with
  | nil =>
    rw [curve_last_sw_singleton] at h2
    linarith
  | cons q rest' ih =>
    have hpq : p.1 < q.1 := (List.chain'_cons.mp hsw).1
    have hq2 : q.2 < p.2 := (List.chain'_cons.mp hpc).1
    rw [evalPc, if_neg (by linarith)]
    by_cases hq : sw ≤ q.1
    · rw [if_pos hq]
      have hnum : (sw - p.1) * (q.2 - p.2) < 0 := by nlinarith
      have : (sw - p.1) * (q.2 - p.2) / (q.1 - p.1) < 0 :=
        div_neg_of_neg_of_pos hnum (by linarith)
      linarith
    · rw [if_neg hq]
      have h1' : q.1 < sw := lt_of_not_le hq
      have h2' : sw < curve_last_sw (q :: rest') := by
        rwa [curve_last_sw_cons] at h2
      have := ih q (List.chain'_cons.mp hsw).2 (List.chain'_cons.mp hpc).2
        h1' h2'
      linarith

lemma evalSw_evalPc (pts : List (ℚ × ℚ)) :
    strictlyIncreasingSw pts → strictlyDecreasingPc pts →
    ∀ sw : ℚ, curve_head_sw pts < sw → sw < curve_last_sw pts →
    evalSw pts (evalPc pts sw) = sw := by
  induction pts with
  | nil =>
    intro _ _ sw h1 h2
    simp only [curve_head_sw, curve_last_sw, List.headD,
      List.getLastD] at h1 h2
    linarith
  | cons p rest ih =>
    intro hsw hpc sw h1 h2
    rw [curve_head_sw_cons] at h1
    cases rest with
    | nil =>
      rw [curve_last_sw_singleton] at h2
      linarith
    | cons q rest' =>
      have hpq : p.1 < q.1 := (List.chain'_cons.mp hsw).1
      have hq2 : q.2 < p.2 := (List.chain'_cons.mp hpc).1
      have ha : (0 : ℚ) < q.1 - p.1 := by linarith
      have hb : q.2 - p.2 < 0 := by linarith
      have ha' : q.1 - p.1 ≠ 0 := ne_of_gt ha
      have hb' : q.2 - p.2 ≠ 0 := ne_of_lt hb
      by_cases hq : sw ≤ q.1
      · rw [evalPc, if_neg (by linarith), if_pos hq]
        rw [evalSw]
        rw [if_neg (by
          have hnum : (sw - p.1) * (q.2 - p.2) < 0 := by nlinarith
          have : (sw - p.1) * (q.2 - p.2) / (q.1 - p.1) < 0 :=
            div_neg_of_neg_of_pos hnum ha
          push_neg
          linarith)]
        rw [if_pos (by
          rw [← sub_nonneg]
          have key : p.2 + (sw - p.1) * (q.2 - p.2) / (q.1 - p.1) - q.2 =
              (p.2 - q.2) * (q.1 - sw) / (q.1 - p.1) := by
            field_simp
            ring
          rw [key]
          apply div_nonneg _ (le_of_lt ha)
          nlinarith)]
        field_simp
        ring
      · have h1' : q.1 < sw := lt_of_not_le hq
        rw [evalPc, if_neg (by linarith), if_neg hq]
        have hlt : evalPc (q :: rest') sw < q.2 := by
          apply evalPc_lt_head q rest' sw (List.chain'_cons.mp hsw).2
            (List.chain'_cons.mp hpc).2 h1'
          rwa [curve_last_sw_cons] at h2
        rw [evalSw, if_neg (by push_neg; linarith),
          if_neg (by push_neg; linarith)]
        exact ih (List.chain'_cons.mp hsw).2 (List.chain'_cons.mp hpc).2 sw
          (by rw [curve_head_sw_cons]; exact h1')
          (by rwa [curve_last_sw_cons] at h2)

lemma evalPc_scale (s : ℚ) (pts : List (ℚ × ℚ)) (sw : ℚ) :
    evalPc (scaleCurve s pts) sw = s * evalPc pts sw := by
  induction pts with
  | nil => simp [scaleCurve, evalPc]
  | cons p rest ih =>
    cases rest with
    | nil => simp [scaleCurve, evalPc]
    | cons q rest' =>
      simp only [scaleCurve, List.map_cons] at ih ⊢
      rw [evalPc, evalPc]
      split_ifs
      · ring
      · ring
      · exact ih

lemma curve_head_sw_scale (s : ℚ) (pts : List (ℚ × ℚ)) :
    curve_head_sw (scaleCurve s pts) = curve_head_sw pts := by
  cases pts <;> rfl

lemma curve_last_sw_scale (s : ℚ) (pts : List (ℚ × ℚ)) :
    curve_last_sw (scaleCurve s pts) = curve_last_sw pts := by
  induction pts with
  | nil => rfl
  | cons p rest ih =>
    cases rest with
    | nil => rfl
    | cons q rest' => exact ih

lemma strictlyIncreasingSw_scale (s : ℚ) (pts : List (ℚ × ℚ))
    (h : strictlyIncreasingSw pts) :
    strictlyIncreasingSw (scaleCurve s pts) := by
  rw [strictlyIncreasingSw, scaleCurve, List.chain'_map]
  exact h.imp fun {a b} hab => hab

lemma strictlyDecreasingPc_scale (s : ℚ) (hs : 0 < s)
    (pts : List (ℚ × ℚ)) (h : strictlyDecreasingPc pts) :
    strictlyDecreasingPc (scaleCurve s pts) := by
  rw [strictlyDecreasingPc, scaleCurve, List.chain'_map]
  exact h.imp fun {a b} hab => by
    simpa using mul_lt_mul_of_pos_left hab hs

lemma add_survey_dates_error (ds : List String) :
    ∀ added restartDates : List String,
      (∀ a ∈ added, a ∈ restartDates) →
      (∃ d ∈ ds, d ∉ restartDates) →
      add_survey_dates ds added restartDates = .error 1 := by
  induction ds with
  | nil =>
    intro added restartDates _ h
    obtain ⟨d, hd, _⟩ := h
    exact absurd hd (List.not_mem_nil d)
  | cons d rest ih =>
    intro added restartDates hsub h
    rw [add_survey_dates]
    by_cases hadd : d ∈ added
    · rw [if_pos hadd]
      apply ih added restartDates hsub
      obtain ⟨e, he, hmiss⟩ := h
      rcases List.mem_cons.mp he with rfl | he'
      · exact absurd (hsub e hadd) hmiss
      · exact ⟨e, he', hmiss⟩
    · rw [if_neg hadd]
      by_cases hres : d ∈ restartDates
      · rw [if_pos hres]
        apply ih (added ++ [d]) restartDates
        · intro a ha
          rcases List.mem_append.mp ha with ha' | ha'
          · exact hsub a ha'
          · rcases List.mem_singleton.mp ha' with rfl
            exact hres
        · obtain ⟨e, he, hmiss⟩ := h
          rcases List.mem_cons.mp he with rfl | he'
          · exact absurd hres hmiss
          · exact ⟨e, he', hmiss⟩
      · rw [if_neg hres]

/-! The claim theorems. -/

/-- C1 (amended): the all-null-or-all-populated invariant on the derived
fields `PC`, `PPCW`, `PC_SCALING` holds for QCRecords whose category is
PPCWMAX or PC_SCALED; records in the other categories may be partially
populated (the counterexample has `PPCW` populated with `PC` and
`PC_SCALING` null). -/
theorem c1_derived_fields_amended (c : CellRecord)
    (h : (classify c).flag = QcFlag.ppcwmax ∨
      (classify c).flag = QcFlag.pcScaled) :
    allNullOrAllSome (classify c) := by
  rcases classify_cases c with hA | hB
  · exact hA
  · exfalso
    rcases h with h | h <;> rcases hB with hb | hb | hb | hb <;>
      rw [h] at hb <;> simp at hb

/-- C1 witness: a concrete PC_SCALED cell on which the amended invariant
holds with all three fields populated. -/
theorem c1_witness :
    ((classify c6cell).flag = QcFlag.ppcwmax ∨
      (classify c6cell).flag = QcFlag.pcScaled) ∧
    allNullOrAllSome (classify c6cell) := by
  have hflag : (classify c6cell).flag = QcFlag.pcScaled := by
    rw [classify_c6cell]
  exact ⟨Or.inr hflag, c1_derived_fields_amended c6cell (Or.inr hflag)⟩

/-- C1 counterexample: the SWL_TRUNC scenario cell is emitted with `PPCW`
populated (the simulator-reported endpoint pressure) while `PC` and
`PC_SCALING` are null, so the three derived fields are not all null or all
non-null. -/
theorem c1_counterexample : ¬ allNullOrAllSome (classify swl_trunc_cell) := by
  rw [classify_swl_trunc_cell]
  simp [allNullOrAllSome]

/-- C2: for a single cell above contact on which no earlier branch fires,
where the resolved scale `s` applied to the curve's `max_pc = 3` exceeds
the configured ceiling `ppcwmax = 3.01`, the classifier returns category
PPCWMAX with `PPCW = 3.01`, `PC_SCALING = 3.01/3` and `PC` the curve
evaluated at `swatinit` with that capped scale. -/
theorem c2_ppcwmax_cap (c : CellRecord) (s : ℚ)
    (hfloor : truncation_floor c ≤ c.swatinit)
    (habove : is_below_contact c.depth c.contact = false)
    (hz : c.swatinit < zero_pc_sat c.curve) (hu : c.swatinit < c.swu)
    (hw : ¬(c.swat = 1 ∧ c.swatinit = 1))
    (hres : resolve_scaling c.curve
        (pc_at_depth c.depth c.contact c.gradient) c.swat
        (is_below_contact c.depth c.contact) = .resolved s)
    (hmax : max_pc c.curve = 3)
    (hpm : c.ppcwmax = some (301/100))
    (hexceed : (301 : ℚ)/100 < s * 3) :
    classify c =
      { flag := .ppcwmax,
        pc := some (evaluate_pc c.curve c.swatinit (301/300)),
        ppcw := some (301/100), pc_scaling := some (301/300),
        swatinit := c.swatinit, swat := c.swat, porv := c.porv } := by
  have h1 : ¬ c.swatinit < truncation_floor c := not_lt.mpr hfloor
  have h3z : ¬ zero_pc_sat c.curve ≤ c.swatinit := not_le.mpr hz
  have h3u : ¬ c.swu ≤ c.swatinit := not_le.mpr hu
  rw [habove] at hres
  simp only [classify, habove, h1, h3z, h3u, hw, hres, hpm, hmax,
    and_false, false_and, if_false, Bool.false_eq_true, or_self,
    not_false_eq_true, if_neg, hexceed, if_true]
  norm_num

/-- C2 witness: the concrete PPCWMAX scenario cell, with resolved scale
6/5 whose scaled endpoint 18/5 exceeds the cap 3.01. -/
theorem c2_witness : classify c2cell =
    { flag := .ppcwmax,
      pc := some (evaluate_pc c2cell.curve c2cell.swatinit (301/300)),
      ppcw := some (301/100), pc_scaling := some (301/300),
      swatinit := c2cell.swatinit, swat := c2cell.swat,
      porv := c2cell.porv } :=
  c2_ppcwmax_cap c2cell (6/5)
    (by norm_num [c2cell, truncation_floor])
    (by norm_num [c2cell, is_below_contact])
    (by norm_num [c2cell, zero_pc_sat, curve_last_sw])
    (by norm_num [c2cell])
    (by norm_num [c2cell])
    resolve_c2cell
    (by norm_num [c2cell, max_pc])
    rfl
    (by norm_num)

/-- C3 (amended): for a single cell with `SWATINIT = 0.3`, `SWL = 0.5`
(no SWLPC) and realized `SWAT = 0.5`, the classifier returns category
SWL_TRUNC, the category's volume contribution is `(0.5 - 0.3) * PORV`,
and `PC` and `PC_SCALING` are null — but `PPCW` retains the
simulator-reported endpoint pressure rather than being null. -/
theorem c3_swl_trunc_amended
    (porv swu depth contact gradient ppcw_sim : ℚ)
    (curve : List (ℚ × ℚ)) (pmax : Option ℚ) :
    classify (c3cell porv swu depth contact gradient ppcw_sim curve pmax) =
      { flag := .swlTrunc, pc := none, ppcw := some ppcw_sim,
        pc_scaling := none, swatinit := 3/10, swat := 1/2, porv := porv } ∧
    qc_volumes [classify
        (c3cell porv swu depth contact gradient ppcw_sim curve pmax)]
      .swlTrunc = (1/2 - 3/10) * porv := by
  have h : classify (c3cell porv swu depth contact gradient ppcw_sim curve
      pmax) =
      { flag := .swlTrunc, pc := none, ppcw := some ppcw_sim,
        pc_scaling := none, swatinit := 3/10, swat := 1/2,
        porv := porv } := by
    norm_num [classify, c3cell, truncation_floor, truncationTolerance]
  refine ⟨h, ?_⟩
  rw [h]
  norm_num [qc_volumes]

/-- C3 counterexample: on the SWL_TRUNC scenario cell the emitted `PPCW`
is populated (value 3), contradicting the claim that `PC`, `PPCW` and
`PC_SCALING` are all left null. -/
theorem c3_counterexample : (classify swl_trunc_cell).flag =
    QcFlag.swlTrunc ∧ (classify swl_trunc_cell).ppcw ≠ none := by
  rw [classify_swl_trunc_cell]
  simp

/-- C4: for a single cell with `SWATINIT = 1` far above contact whose
realized `SWAT` equals `SWL = 0.1`, the classifier returns category
SWATINIT_1 and the volume contribution is `(0.1 - 1) * PORV`, a negative
number (water lost). -/
theorem c4_swatinit1_scenario (porv : ℚ) (hporv : 0 < porv) :
    (classify (c4cell porv)).flag = .swatinit1 ∧
    qc_volumes [classify (c4cell porv)] .swatinit1 = (1/10 - 1) * porv ∧
    qc_volumes [classify (c4cell porv)] .swatinit1 < 0 := by
  have h : classify (c4cell porv) =
      { flag := .swatinit1, pc := none, ppcw := some 3, pc_scaling := none,
        swatinit := 1, swat := 1/10, porv := porv } := by
    norm_num [classify, c4cell, truncation_floor, truncationTolerance,
      is_below_contact, zero_pc_sat, curve_last_sw, curve_head_sw]
  rw [h]
  refine ⟨rfl, ?_, ?_⟩ <;> norm_num [qc_volumes]
  linarith

/-- C4 witness: the scenario at pore volume 1000. -/
theorem c4_witness : 0 < (1000 : ℚ) ∧
    ((classify (c4cell 1000)).flag = .swatinit1 ∧
      qc_volumes [classify (c4cell 1000)] .swatinit1 = (1/10 - 1) * 1000 ∧
      qc_volumes [classify (c4cell 1000)] .swatinit1 < 0) :=
  ⟨by norm_num, c4_swatinit1_scenario 1000 (by norm_num)⟩

/-- C5: for every collection of QCRecords the aggregator's per-category
totals partition the cell set: the per-category cell counts sum to the
total cell count and the per-category signed volumes sum to
`Σ (SWAT - SWATINIT) * PORV` over all cells. -/
theorem c5_aggregator_partition (recs : List QCRecord) :
    (∑ f : QcFlag, qc_counts recs f) = recs.length ∧
    (∑ f : QcFlag, qc_volumes recs f) =
      (recs.map fun r => (r.swat - r.swatinit) * r.porv).sum := by
  constructor
  · rw [length_eq_sum_ones recs, ← sum_over_flags (fun _ => (1 : ℕ)) recs]
    exact Finset.sum_congr rfl fun f _ => by
      rw [qc_counts, length_eq_sum_ones]
  · rw [← sum_over_flags (fun r => (r.swat - r.swatinit) * r.porv) recs]
    rfl

/-- C6 (amended): for every cell whose resolved category is PC_SCALED,
the recorded scaling explains the realized saturation — evaluating the
cell's curve at `SWAT` with the recorded `PC_SCALING` returns the cell's
unscaled in-place pressure.  `|SWAT - SWATINIT| < tolerance` is not
enforced by the classifier and can fail (see the counterexample). -/
theorem c6_pc_scaled_amended (c : CellRecord) (s : ℚ)
    (hflag : (classify c).flag = QcFlag.pcScaled)
    (hsc : (classify c).pc_scaling = some s) :
    evaluate_pc c.curve c.swat s =
      pc_at_depth c.depth c.contact c.gradient :=
  resolve_scaling_eq c.curve _ c.swat (is_below_contact c.depth c.contact)
    s (classify_pcScaled_resolved c s hflag hsc)

/-- C6 witness: the concrete PC_SCALED cell with recorded scale 6; the
scaled curve at `SWAT = 0.9` returns the cell's in-place pressure 2. -/
theorem c6_witness : evaluate_pc c6cell.curve c6cell.swat 6 =
    pc_at_depth c6cell.depth c6cell.contact c6cell.gradient :=
  c6_pc_scaled_amended c6cell 6 (by rw [classify_c6cell])
    (by rw [classify_c6cell])

/-- C6 counterexample: a cell whose resolved category is PC_SCALED but
whose realized saturation 0.9 differs from the requested 0.3 by far more
than the tolerance. -/
theorem c6_counterexample : (classify c6cell).flag = QcFlag.pcScaled ∧
    ¬(|c6cell.swat - c6cell.swatinit| < truncationTolerance) := by
  constructor
  · rw [classify_c6cell]
  · norm_num [c6cell, truncationTolerance, abs_lt]

/-- C7 (amended): on every valid curve table whose pressures are strictly
decreasing (no flat pressure segment), for every saturation strictly
inside the table domain and every scale factor `s > 0`, inversion is an
exact inverse of evaluation: `evaluate_sw (evaluate_pc sw s) s = sw`.  On
a table with a flat segment the inversion may instead return an endpoint
of the flat segment (see the counterexample). -/
theorem c7_inversion_amended (pts : List (ℚ × ℚ)) (hvalid : validCurve pts)
    (hstrict : strictlyDecreasingPc pts) (sw : ℚ)
    (h1 : curve_head_sw pts < sw) (h2 : sw < curve_last_sw pts)
    (s : ℚ) (hs : 0 < s) :
    evaluate_sw pts (evaluate_pc pts sw s) s = sw := by
  rw [evaluate_sw, evaluate_pc, ← evalPc_scale s pts sw]
  exact evalSw_evalPc (scaleCurve s pts)
    (strictlyIncreasingSw_scale s pts hvalid.2.1)
    (strictlyDecreasingPc_scale s hs pts hstrict) sw
    (by rwa [curve_head_sw_scale]) (by rwa [curve_last_sw_scale])

/-- C7 witness: the two-point curve from the tests, saturation 1/2
strictly inside the domain, scale 2: the round trip returns 1/2. -/
theorem c7_witness :
    evaluate_sw [((1:ℚ)/10, 3), (1, 0)]
      (evaluate_pc [((1:ℚ)/10, 3), (1, 0)] (1/2) 2) 2 = 1/2 :=
  c7_inversion_amended [((1:ℚ)/10, 3), (1, 0)]
    ⟨by simp, by norm_num [strictlyIncreasingSw, List.chain'_cons],
      by norm_num [nonIncreasingPc, List.chain'_cons]⟩
    (by norm_num [strictlyDecreasingPc, List.chain'_cons])
    (1/2) (by norm_num [curve_head_sw]) (by norm_num [curve_last_sw])
    2 (by norm_num)

/-- C7 counterexample: `flatCurve` is a valid table (strictly increasing
saturations, non-increasing pressures) with a flat pressure segment; at
the interior saturation 1/4 with scale 1, the round trip returns 0, which
is not within the tolerance of 1/4. -/
theorem c7_counterexample : validCurve flatCurve ∧
    curve_head_sw flatCurve < 1/4 ∧ (1/4 : ℚ) < curve_last_sw flatCurve ∧
    (0 : ℚ) < 1 ∧
    evaluate_sw flatCurve (evaluate_pc flatCurve (1/4) 1) 1 = 0 ∧
    ¬(|evaluate_sw flatCurve (evaluate_pc flatCurve (1/4) 1) 1 - 1/4| ≤
      truncationTolerance) := by
  have hval : evaluate_sw flatCurve (evaluate_pc flatCurve (1/4) 1) 1 = 0 := by
    norm_num [evaluate_sw, evaluate_pc, evalPc, evalSw, scaleCurve,
      flatCurve]
  refine ⟨⟨by simp [flatCurve], ?_, ?_⟩, ?_, ?_, ?_, hval, ?_⟩
  · norm_num [strictlyIncreasingSw, flatCurve, List.chain'_cons]
  · norm_num [nonIncreasingPc, flatCurve, List.chain'_cons]
  · norm_num [curve_head_sw, flatCurve]
  · norm_num [curve_last_sw, flatCurve]
  · norm_num
  · rw [hval]
    norm_num [truncationTolerance, abs_le]

/-- C8 (amended): a missing UNIFOUT setting or missing restart data
(UNRST) terminates the tool with a non-zero exit status naming the
missing file; a missing SWATINIT keyword or missing SWL endpoint data is
reported by a logged message naming the keyword while the process
completes with success status; with all inputs present the run completes
successfully. -/
theorem c8_exit_contract_amended :
    (∀ i : CheckSwatinitInputs,
      isFailureRun (check_swatinit_main i) =
        (!i.has_unifout || !i.has_unrst)) ∧
    check_swatinit_main
      { has_unifout := true, has_unrst := false, has_swatinit := true,
        has_swl := true } = .exitFailure "UNRST" ∧
    check_swatinit_main
      { has_unifout := true, has_unrst := true, has_swatinit := false,
        has_swl := true } =
      .completed ["INIT-file/deck does not have SWATINIT"] ∧
    check_swatinit_main
      { has_unifout := true, has_unrst := true, has_swatinit := true,
        has_swl := false } =
      .completed ["SWL not found, FILLEPS is needed"] ∧
    check_swatinit_main
      { has_unifout := true, has_unrst := true, has_swatinit := true,
        has_swl := true } = .completed [] := by
  refine ⟨?_, rfl, rfl, rfl, rfl⟩
  intro i
  rcases i with ⟨u, r, s, l⟩
  cases u <;> cases r <;> cases s <;> cases l <;> rfl

/-- C8 counterexample: with SWATINIT absent (and everything else present)
the run completes with success status, so a missing SWATINIT does not
terminate the process with a non-zero exit status. -/
theorem c8_counterexample :
    isFailureRun (check_swatinit_main
      { has_unifout := true, has_unrst := true, has_swatinit := false,
        has_swl := true }) = false := rfl

/-- C9: in `main_gravmaps`, if any date of a configured difference-date
pair is absent from the dates of the UNRST restart file, the run
terminates with exit status 1 and no map file is produced (the result
carries no maps). -/
theorem c9_missing_date_error
    (gravEval : String → String → ℚ × ℚ × ℚ → Nat → ℚ)
    (subsEval : String → String → ℚ × ℚ × ℚ → ℚ → ℚ → ℚ → ℚ)
    (seabed : List SurfRow) (poisson : ℚ)
    (diffdates : List (String × String)) (phases : List String)
    (restartDates : List String)
    (h : ∃ p ∈ diffdates, p.1 ∉ restartDates ∨ p.2 ∉ restartDates) :
    main_gravmaps gravEval subsEval seabed poisson diffdates phases
      restartDates = .error 1 := by
  obtain ⟨p, hp, hmiss⟩ := h
  have hdates : ∃ d ∈ diffdates.flatMap fun q => [q.1, q.2],
      d ∉ restartDates := by
    rcases hmiss with hm | hm
    · exact ⟨p.1, List.mem_flatMap.mpr ⟨p, hp, by simp⟩, hm⟩
    · exact ⟨p.2, List.mem_flatMap.mpr ⟨p, hp, by simp⟩, hm⟩
  rw [main_gravmaps,
    add_survey_dates_error _ _ restartDates (by simp) hdates]

/-- C9 witness: a difference pair whose first date is not a restart date
makes the concrete run exit with status 1. -/
theorem c9_witness : main_gravmaps gravEval0 subsEval0 seabed0 0
    [("dX", "d1")] phases0 restartDates0 = .error 1 :=
  c9_missing_date_error gravEval0 subsEval0 seabed0 0 [("dX", "d1")]
    phases0 restartDates0
    ⟨("dX", "d1"), by simp, Or.inl (by simp [restartDates0])⟩

/-- C10: every subsidence map value written by `main_gravmaps` equals the
Geertsma-model evaluation at that surface point multiplied by 100 (metres
to centimetres), while delta-gravity map values are written exactly as
evaluated. -/
theorem c10_map_values
    (gravEval : String → String → ℚ × ℚ × ℚ → Nat → ℚ)
    (subsEval : String → String → ℚ × ℚ × ℚ → ℚ → ℚ → ℚ → ℚ)
    (seabed : List SurfRow) (poisson : ℚ)
    (diffdates : List (String × String)) (phases : List String)
    (restartDates : List String) (files : List MapFile) (m : MapFile)
    (ph : String)
    (hok : main_gravmaps gravEval subsEval seabed poisson diffdates phases
      restartDates = .ok files)
    (hm : m ∈ files) :
    (m.kind = MapKind.subsidence →
      m.values = seabed.map fun r =>
        subsEval m.d1 m.d0 (r.x, r.y, r.v) DUMMY_YOUNGS poisson r.v * 100) ∧
    (m.kind = MapKind.gravity ph →
      m.values = seabed.map fun r =>
        gravEval m.d1 m.d0 (r.x, r.y, r.v) (phase_code ph)) := by
  rw [main_gravmaps] at hok
  rcases hadd : add_survey_dates (diffdates.flatMap fun p => [p.1, p.2]) []
      restartDates with n | added
  · rw [hadd] at hok
    cases hok
  · rw [hadd] at hok
    simp only [Except.ok.injEq] at hok
    subst hok
    rcases List.mem_append.mp hm with hg | hs
    · obtain ⟨d, hd, hmm⟩ := List.mem_flatMap.mp hg
      obtain ⟨phase, hphase, rfl⟩ := List.mem_map.mp hmm
      constructor
      · intro hkind
        simp at hkind
      · intro hkind
        simp only [MapKind.gravity.injEq] at hkind
        subst hkind
        rfl
    · obtain ⟨d, hd, rfl⟩ := List.mem_map.mp hs
      constructor
      · intro _
        simp only [List.map_map]
        rfl
      · intro hkind
        simp at hkind

/-- C10 witness: in a concrete run the written subsidence map carries the
Geertsma evaluation times 100 at the single seabed point. -/
theorem c10_witness :
    ({ kind := MapKind.subsidence, d0 := "d2", d1 := "d1",
       filename := subssurf_filename "d2" "d1",
       values := [1000] } : MapFile).values =
      seabed0.map fun r =>
        subsEval0 "d1" "d2" (r.x, r.y, r.v) DUMMY_YOUNGS 0 r.v * 100 :=
  (c10_map_values gravEval0 subsEval0 seabed0 0 diffdates0 phases0
    restartDates0
    [{ kind := MapKind.gravity "gas", d0 := "d2", d1 := "d1",
       filename := gravsurf_filename "gas" "d2" "d1", values := [5] },
     { kind := MapKind.subsidence, d0 := "d2", d1 := "d1",
       filename := subssurf_filename "d2" "d1", values := [1000] }]
    { kind := MapKind.subsidence, d0 := "d2", d1 := "d1",
      filename := subssurf_filename "d2" "d1", values := [1000] }
    "gas"
    (by
      norm_num [main_gravmaps, add_survey_dates, gravEval0, subsEval0,
        seabed0, diffdates0, phases0, restartDates0, phase_code,
        DUMMY_YOUNGS]
      norm_num [show ("d1" = "d2") = False by simp,
        show ("d2" = "d1") = False by simp])
    (by simp)).1 rfl
